import Mathlib

/-!
Verification of the BizObs LoadRunner journey scripts
(`loadrunner-tests/*/BizObsJourneyTest.c`).

The scripts are straight-line C driven by the LoadRunner API.  We embed them
shallowly: each script's `Action` body becomes a pure function from its
run-time inputs (virtual-user id, iteration number, wall-clock seconds,
customer profile, per-step HTTP response statuses) to a trace of the
observable LoadRunner/web events it performs, and the string-building
`sprintf` calls become pure string functions.  `sprintf`'s `%d` on a
non-negative `int` is modelled by the decimal printer `cDec` below.
-/

namespace BizObs

/-! ### Decimal rendering of a non-negative integer (`sprintf %d`) -/

/-- Fuel-driven decimal digit emitter: digits of `n`, most significant first.
Fuel `n + 1` always suffices. -/
def cDecAux : Nat → Nat → List Char
  | 0, _ => []
  | fuel + 1, n =>
    if n < 10 then [Nat.digitChar n]
    else cDecAux fuel (n / 10) ++ [Nat.digitChar (n % 10)]

/-- Model of `sprintf("%d", n)` for a non-negative C `int` value `n`. -/
def cDec (n : Nat) : String := String.mk (cDecAux (n + 1) n)

theorem cDecAux_fuel_irrel (fuel₁ fuel₂ n : Nat) (h₁ : n < fuel₁) (h₂ : n < fuel₂) :
    cDecAux fuel₁ n = cDecAux fuel₂ n := by
  induction n using Nat.strongRecOn generalizing fuel₁ fuel₂ with
  | _ n ih =>
    cases fuel₁ with
    | zero => omega
    | succ f₁ =>
      cases fuel₂ with
      | zero => omega
      | succ f₂ =>
        simp only [cDecAux]
        split
        · rfl
        · rw [ih (n / 10) (by omega) f₁ f₂ (by omega) (by omega)]

theorem digitChar_toNat_of_lt {d : Nat} (h : d < 10) :
    (Nat.digitChar d).toNat = d + 48 := by
  interval_cases d <;> decide

/-- Reading the emitted digits back (most significant first) recovers `n`. -/
theorem cDecAux_readback (n : Nat) :
    (cDecAux (n + 1) n).foldl (fun acc c => acc * 10 + (c.toNat - 48)) 0 = n := by
  induction n using Nat.strongRecOn with
  | _ n ih =>
    simp only [cDecAux]
    split
    · simp only [List.foldl]
      rw [digitChar_toNat_of_lt (by omega)]
      omega
    · rw [cDecAux_fuel_irrel n (n / 10 + 1) (n / 10) (by omega) (by omega)]
      rw [List.foldl_append, ih (n / 10) (by omega)]
      simp only [List.foldl]
      rw [digitChar_toNat_of_lt (Nat.mod_lt n (by omega))]
      omega

/-- The decimal model of `%d` is injective. -/
theorem cDec_injective {m n : Nat} (h : cDec m = cDec n) : m = n := by
  have hm := cDecAux_readback m
  have hn := cDecAux_readback n
  have hdata : cDecAux (m + 1) m = cDecAux (n + 1) n := congrArg String.data h
  rw [hdata] at hm
  omega

theorem digitChar_isDigit {d : Nat} (h : d < 10) : (Nat.digitChar d).isDigit = true := by
  interval_cases d <;> decide

/-- Every character `cDecAux` emits is a decimal digit. -/
theorem cDecAux_all_digits (fuel n : Nat) : ∀ c ∈ cDecAux fuel n, c.isDigit = true := by
  induction fuel generalizing n with
  | zero => simp [cDecAux]
  | succ fuel ih =>
    simp only [cDecAux]
    split
    · intro c hc
      simp only [List.mem_singleton] at hc
      subst hc
      exact digitChar_isDigit (by omega)
    · intro c hc
      rcases List.mem_append.mp hc with hc | hc
      · exact ih _ c hc
      · simp only [List.mem_singleton] at hc
        subst hc
        exact digitChar_isDigit (Nat.mod_lt n (by omega))

/-- No underscore ever appears in a rendered decimal number. -/
theorem underscore_not_mem_cDecAux (fuel n : Nat) : '_' ∉ cDecAux fuel n := by
  intro h
  have := cDecAux_all_digits fuel n '_' h
  simp at this

/-- `n < 10 ^ (k+1)` renders in at most `k + 1` digits. -/
theorem cDecAux_length_le (fuel n k : Nat) (hf : n < fuel) (hk : n < 10 ^ (k + 1)) :
    (cDecAux fuel n).length ≤ k + 1 := by
  induction fuel generalizing n k with
  | zero => omega
  | succ fuel ih =>
    simp only [cDecAux]
    split
    · have : ([Nat.digitChar n]).length = 1 := rfl
      omega
    · cases k with
      | zero =>
        have h10 : (10 : Nat) ^ (0 + 1) = 10 := by norm_num
        omega
      | succ k =>
        have hdiv : n / 10 < 10 ^ (k + 1) := by
          rw [Nat.div_lt_iff_lt_mul (by omega)]
          calc n < 10 ^ (k + 1 + 1) := hk
          _ = 10 ^ (k + 1) * 10 := by ring
        have hfdiv : n / 10 < fuel := by
          have : n / 10 < n := Nat.div_lt_self (by omega) (by omega)
          omega
        have := ih (n / 10) k hfdiv hdiv
        rw [List.length_append]
        have h1 : ([(n % 10).digitChar]).length = 1 := rfl
        omega

theorem cDec_length_le (n k : Nat) (hk : n < 10 ^ (k + 1)) : (cDec n).length ≤ k + 1 :=
  cDecAux_length_le (n + 1) n k (by omega) hk

theorem cDecAux_injective {m n : Nat} (h : cDecAux (m + 1) m = cDecAux (n + 1) n) :
    m = n := by
  have hm := cDecAux_readback m
  have hn := cDecAux_readback n
  rw [h] at hm
  omega

/-! ### Identifier Generator

The Argos script `Argos_2026-01-06T13-48-03-019Z/BizObsJourneyTest.c`,
`Action` lines 84-98.  `(int)time(NULL)` is modelled as the single
wall-clock-seconds input `now` of the iteration. -/

/-- The run label (LTN) baked into the Argos script. -/
def runLabel : String := "Argos_LoadTest_20260106"

/-- The journey label (LSN) baked into the Argos script. -/
def journeyLabel : String := "BizObs_Argos_www.Argos.co.uk_Journey"

/-- `sprintf(correlation_id, "LR_Argos_LoadTest_20260106_%d_%d_%d",
vuser_id, iteration, (int)time(NULL))` (line 88). -/
def correlation_id (vuser_id iteration now : Nat) : String :=
  "LR_Argos_LoadTest_20260106_" ++ cDec vuser_id ++ "_" ++ cDec iteration ++ "_" ++ cDec now

/-- `sprintf(customer_id, "customer_%d_%d_%d", vuser_id, iteration,
(int)time(NULL) % 10000)` (line 92). -/
def customer_id (vuser_id iteration now : Nat) : String :=
  "customer_" ++ cDec vuser_id ++ "_" ++ cDec iteration ++ "_" ++ cDec (now % 10000)

/-- `sprintf(session_id, "session_BizObs_Argos_www.Argos.co.uk_Journey_%d_%d",
vuser_id, iteration)` (line 93). -/
def session_id (vuser_id iteration : Nat) : String :=
  "session_BizObs_Argos_www.Argos.co.uk_Journey_" ++ cDec vuser_id ++ "_" ++ cDec iteration

/-- `sprintf(trace_id, "trace_%s_%d", correlation_id, (int)time(NULL))` (line 94). -/
def trace_id (vuser_id iteration now : Nat) : String :=
  "trace_" ++ correlation_id vuser_id iteration now ++ "_" ++ cDec now

namespace Bt

/-! The Bt script `Bt_2026-02-05T09-19-25-621Z/BizObsJourneyTest.c`,
`Action` lines 84-98: identical structure with Bt labels. -/

def runLabel : String := "Bt_LoadTest_20260205"

def journeyLabel : String := "BizObs_Bt_www.bt.com_Journey"

/-- `sprintf(correlation_id, "LR_Bt_LoadTest_20260205_%d_%d_%d", ...)`. -/
def correlation_id (vuser_id iteration now : Nat) : String :=
  "LR_Bt_LoadTest_20260205_" ++ cDec vuser_id ++ "_" ++ cDec iteration ++ "_" ++ cDec now

/-- `sprintf(customer_id, "customer_%d_%d_%d", ...)`. -/
def customer_id (vuser_id iteration now : Nat) : String :=
  "customer_" ++ cDec vuser_id ++ "_" ++ cDec iteration ++ "_" ++ cDec (now % 10000)

/-- `sprintf(session_id, "session_BizObs_Bt_www.bt.com_Journey_%d_%d", ...)`. -/
def session_id (vuser_id iteration : Nat) : String :=
  "session_BizObs_Bt_www.bt.com_Journey_" ++ cDec vuser_id ++ "_" ++ cDec iteration

/-- `sprintf(trace_id, "trace_%s_%d", correlation_id, ...)`. -/
def trace_id (vuser_id iteration now : Nat) : String :=
  "trace_" ++ correlation_id vuser_id iteration now ++ "_" ++ cDec now

end Bt

/-! Spec-side identifier templates, following the words of spec section 4.1
("Identifier Generator: Contract"), to be compared with the script-side
definitions above. -/

/-- Spec: `correlationId = LR_{runLabel}_{workerId}_{iterationNumber}_{wallClockSeconds}`. -/
def specCorrelationId (rl : String) (workerId iterationNumber wallClockSeconds : Nat) : String :=
  "LR_" ++ rl ++ "_" ++ cDec workerId ++ "_" ++ cDec iterationNumber ++ "_" ++
    cDec wallClockSeconds

/-- Spec: `customerId = customer_{workerId}_{iterationNumber}_{wallClockSeconds mod 10000}`. -/
def specCustomerId (workerId iterationNumber wallClockSeconds : Nat) : String :=
  "customer_" ++ cDec workerId ++ "_" ++ cDec iterationNumber ++ "_" ++
    cDec (wallClockSeconds % 10000)

/-- Spec: `sessionId = session_{journeyLabel}_{workerId}_{iterationNumber}`. -/
def specSessionId (jl : String) (workerId iterationNumber : Nat) : String :=
  "session_" ++ jl ++ "_" ++ cDec workerId ++ "_" ++ cDec iterationNumber

/-- Spec: `traceId = trace_{correlationId}_{wallClockSeconds}`. -/
def specTraceId (correlationId : String) (wallClockSeconds : Nat) : String :=
  "trace_" ++ correlationId ++ "_" ++ cDec wallClockSeconds

/-- C3: for every (workerId, iterationNumber, wallClockSeconds), the two
scripts' `sprintf` calls produce exactly the four identifier strings of the
spec's Identifier Generator contract, instantiated with each script's run
and journey label — a pure function of those inputs. -/
theorem identifier_generator_matches_spec (v i t : Nat) :
    correlation_id v i t = specCorrelationId runLabel v i t ∧
    customer_id v i t = specCustomerId v i t ∧
    session_id v i = specSessionId journeyLabel v i ∧
    trace_id v i t = specTraceId (correlation_id v i t) t ∧
    Bt.correlation_id v i t = specCorrelationId Bt.runLabel v i t ∧
    Bt.customer_id v i t = specCustomerId v i t ∧
    Bt.session_id v i = specSessionId Bt.journeyLabel v i ∧
    Bt.trace_id v i t = specTraceId (Bt.correlation_id v i t) t :=
  ⟨rfl, rfl, rfl, rfl, rfl, rfl, rfl, rfl⟩

/-! ### Uniqueness of the correlation id (C4) -/

theorem underscore_split {a b x y : List Char} (ha : '_' ∉ a) (hb : '_' ∉ b)
    (h : a ++ '_' :: x = b ++ '_' :: y) : a = b ∧ x = y := by
  induction a generalizing b with
  | nil =>
    cases b with
    | nil =>
      simp only [List.nil_append] at h
      injection h with _ h2
      exact ⟨rfl, h2⟩
    | cons d bs =>
      simp only [List.nil_append, List.cons_append] at h
      injection h with h1 _
      subst h1
      exact absurd (List.mem_cons_self _ _) hb
  | cons c as ih =>
    cases b with
    | nil =>
      simp only [List.cons_append, List.nil_append] at h
      injection h with h1 _
      subst h1
      exact absurd (List.mem_cons_self _ _) ha
    | cons d bs =>
      simp only [List.cons_append] at h
      injection h with h1 h2
      have ha' : '_' ∉ as := fun hmem => ha (List.mem_cons_of_mem c hmem)
      have hb' : '_' ∉ bs := fun hmem => hb (List.mem_cons_of_mem d hmem)
      obtain ⟨h3, h4⟩ := ih ha' hb' h2
      exact ⟨by rw [h1, h3], h4⟩

theorem underscore_data_eq : ("_" : String).data = ['_'] := rfl

/-- Two equal correlation ids agree on worker id and iteration number. -/
theorem correlation_id_inj_pair {v i t v' i' t' : Nat}
    (h : correlation_id v i t = correlation_id v' i' t') : v = v' ∧ i = i' := by
  have hd := congrArg String.data h
  simp only [correlation_id, cDec, String.data_append, List.append_assoc,
    underscore_data_eq, List.singleton_append] at hd
  have h2 := List.append_cancel_left hd
  obtain ⟨hv, hrest⟩ := underscore_split (underscore_not_mem_cDecAux _ _)
    (underscore_not_mem_cDecAux _ _) h2
  obtain ⟨hi, _⟩ := underscore_split (underscore_not_mem_cDecAux _ _)
    (underscore_not_mem_cDecAux _ _) hrest
  exact ⟨cDecAux_injective hv, cDecAux_injective hi⟩

/-- C4: two generations of the correlation id within one run (same baked-in
run label) by distinct (workerId, iterationNumber) pairs always yield
distinct strings, whatever wall-clock seconds each one observed. -/
theorem correlationId_injective (v i t v' i' t' : Nat)
    (hne : (v, i) ≠ (v', i')) :
    correlation_id v i t ≠ correlation_id v' i' t' := fun h => by
  obtain ⟨h1, h2⟩ := correlation_id_inj_pair h
  exact hne (by rw [h1, h2])

/-- Witness for C4 at concrete inputs: worker 1 iteration 1 versus
worker 1 iteration 2, observed at different seconds. -/
theorem correlationId_injective_witness :
    ((1, 1) : Nat × Nat) ≠ (1, 2) ∧ correlation_id 1 1 5 ≠ correlation_id 1 2 7 :=
  ⟨by decide, correlationId_injective 1 1 5 1 2 7 (by decide)⟩

/-! ### Fit of the generated ids in their 64-byte buffers (C9)

The script declares `char trace_id[64]` (line 22), so at most 63 characters
plus the terminating NUL fit.  C `int` is 32-bit in LoadRunner scripts:
representable non-negative values are `0 .. 2147483647`. -/

/-- C9 counterexample: with worker id, iteration number and wall-clock
seconds all equal to `2000000000` — each a representable non-negative C
`int` — the generated `trace_id` string has 76 characters, so writing it
plus the NUL overruns the 64-byte `trace_id` buffer. -/
theorem traceId_overflows_buffer :
    2000000000 ≤ 2147483647 ∧
      (trace_id 2000000000 2000000000 2000000000).length = 76 ∧
      ¬ (trace_id 2000000000 2000000000 2000000000).length ≤ 63 := by
  refine ⟨by omega, ?_, ?_⟩ <;> decide

/-- C9 amended: the `trace_id` string fits its 64-byte buffer only for
bounded inputs; in particular it fits whenever the worker id and iteration
number are below 1000 and the wall-clock seconds value is below 10^10
(every real epoch-seconds value through the year 2286). -/
theorem traceId_fits_when_bounded (v i t : Nat)
    (hv : v < 1000) (hi : i < 1000) (ht : t < 10 ^ 10) :
    (trace_id v i t).length ≤ 63 := by
  have hv3 : v < 10 ^ (2 + 1) := by norm_num; omega
  have hi3 : i < 10 ^ (2 + 1) := by norm_num; omega
  have ht10 : t < 10 ^ (9 + 1) := by norm_num at ht ⊢; omega
  have hv' := cDec_length_le v 2 hv3
  have hi' := cDec_length_le i 2 hi3
  have ht' := cDec_length_le t 9 ht10
  have l1 : ("trace_" : String).length = 6 := rfl
  have l2 : ("LR_Argos_LoadTest_20260106_" : String).length = 27 := rfl
  have l3 : ("_" : String).length = 1 := rfl
  simp only [trace_id, correlation_id, String.length_append]
  omega

/-- Witness for the amended C9 at the largest bounded digit counts. -/
theorem traceId_fits_when_bounded_witness :
    999 < 1000 ∧ (trace_id 999 999 9999999999).length ≤ 63 :=
  ⟨by omega, traceId_fits_when_bounded 999 999 9999999999 (by omega) (by omega) (by norm_num)⟩

/-! ### Customer catalogs and `vuser_init` (lines 29-76) -/

def customer_names : List String :=
  ["Sarah Johnson", "Michael Chen", "Emma Rodriguez", "David Kim",
   "Ashley Thompson", "Robert Martinez", "Jennifer Lee", "Christopher Brown",
   "Amanda Wilson", "Joshua Garcia", "Melissa Davis", "Andrew Miller",
   "Jessica Anderson", "Kevin Taylor", "Lauren Thomas", "Brian Jackson"]

def customer_emails : List String :=
  ["sarah.johnson@email.com", "michael.chen@email.com", "emma.rodriguez@email.com",
   "david.kim@email.com", "ashley.thompson@email.com", "robert.martinez@email.com",
   "jennifer.lee@email.com", "christopher.brown@email.com", "amanda.wilson@email.com",
   "joshua.garcia@email.com", "melissa.davis@email.com", "andrew.miller@email.com",
   "jessica.anderson@email.com", "kevin.taylor@email.com", "lauren.thomas@email.com",
   "brian.jackson@email.com"]

def customer_segments : List String :=
  ["Premium", "Standard", "Budget", "Enterprise", "SMB", "Startup"]

def traffic_sources : List String :=
  ["Google_Ads", "Facebook_Campaign", "Email_Newsletter", "Direct_Traffic",
   "Referral_Partner", "Organic_Search", "Social_Media", "Content_Marketing"]

/-- The per-virtual-user customer profile saved by `vuser_init`. -/
structure Profile where
  customer_name : String
  customer_email : String
  customer_segment : String
  traffic_source : String
  deriving DecidableEq, Repr

/-- `vuser_init` lines 62-67: `r1`, `r2`, `r3` are the three successive
`rand()` draws after `srand(time(NULL) + lr_get_vuser_id())`; the first is
`customer_index`, used for both the name and the email catalog, the next
two pick the segment and the traffic source. -/
def vuser_init (r1 r2 r3 : Nat) : Profile :=
  { customer_name := customer_names.getD (r1 % 16) ""
    customer_email := customer_emails.getD (r1 % 16) ""
    customer_segment := customer_segments.getD (r2 % 6) ""
    traffic_source := traffic_sources.getD (r3 % 8) "" }

/-! ### Journey definition data (the six Argos steps) -/

/-- One generated step of the journey (static data of the script; the
sub-step annotations are static request-payload text used by no claim and
are not carried in the model). -/
structure StepDef where
  stepNumber : Nat
  stepName : String
  serviceName : String
  description : String
  estimatedDuration : Nat
  thinkAfter : Nat
  deriving DecidableEq, Repr

def argosStep1 : StepDef :=
  { stepNumber := 1, stepName := "ProductDiscovery",
    serviceName := "ProductDiscoveryService",
    description := "Customer searches for products, views categories, and opens product detail pages.",
    estimatedDuration := 4, thinkAfter := 5 }

def argosStep2 : StepDef :=
  { stepNumber := 2, stepName := "BasketManagement",
    serviceName := "BasketManagementService",
    description := "Customer adds multiple products to basket and reviews basket contents.",
    estimatedDuration := 3, thinkAfter := 5 }

def argosStep3 : StepDef :=
  { stepNumber := 3, stepName := "CheckoutInitiation",
    serviceName := "CheckoutInitiationService",
    description := "Customer begins checkout, enters email, selects fulfilment options.",
    estimatedDuration := 5, thinkAfter := 5 }

def argosStep4 : StepDef :=
  { stepNumber := 4, stepName := "PaymentProcessing",
    serviceName := "PaymentProcessingService",
    description := "Customer enters payment details and completes payment.",
    estimatedDuration := 3, thinkAfter := 5 }

def argosStep5 : StepDef :=
  { stepNumber := 5, stepName := "FulfilmentAllocation",
    serviceName := "FulfilmentAllocationService",
    description := "Argos allocates stock to delivery and click & collect orders.",
    estimatedDuration := 2, thinkAfter := 5 }

def argosStep6 : StepDef :=
  { stepNumber := 6, stepName := "DeliveryCompletion",
    serviceName := "DeliveryCompletionService",
    description := "Customer receives home delivery and collects in‑store item.",
    estimatedDuration := 1440, thinkAfter := 1 }

def argosSteps : List StepDef :=
  [argosStep1, argosStep2, argosStep3, argosStep4, argosStep5, argosStep6]

/-! ### The event-trace model of `Action` -/

/-- Outcome argument of `lr_end_transaction` (`LR_PASS` / `LR_FAIL` /
`LR_AUTO`). -/
inductive TxnOutcome where
  | pass
  | fail
  | auto
  deriving DecidableEq, Repr

/-- Lines 174-179: the step transaction is failed when
`atoi(lr_eval_string("{status}")) >= 400`, passed otherwise. -/
def stepOutcome (status : Nat) : TxnOutcome :=
  if 400 ≤ status then TxnOutcome.fail else TxnOutcome.pass

/-- JSON body of a per-step `web_custom_request` (lines 132-171), in parsed
form. -/
structure StepBody where
  journeyId : String
  customerId : String
  sessionId : String
  traceId : String
  chained : Bool
  thinkTimeMs : Nat
  errorSimulationEnabled : Bool
  companyName : String
  domain : String
  stepNumber : Nat
  stepName : String
  serviceName : String
  description : String
  estimatedDuration : Nat
  profileName : String
  profileEmail : String
  profileSegment : String
  profileUserId : String
  deviceType : String
  location : String
  deriving DecidableEq, Repr

/-- JSON body of the trailing `Journey_Completion_Event` request
(lines 680-691), in parsed form. -/
structure CompletionBody where
  eventType : String
  correlationId : String
  customerId : String
  companyName : String
  customerName : String
  customerSegment : String
  totalSteps : Nat
  loadTest : Bool
  completionTime : String
  deriving DecidableEq, Repr

/-- One observable LoadRunner/web call of the script.  `web_add_header`
attaches a header to the next request only, so each request event carries
the headers attached since the previous request.  Log messages are carried
with their LoadRunner parameters already evaluated. -/
inductive Event where
  | saveParam (name value : String)
  | startTxn (name : String)
  | endTxn (name : String) (outcome : TxnOutcome)
  | addHeader (name value : String)
  | revertAutoHeader (name : String)
  | cleanupCookies
  | stepRequest (label : String) (headers : List (String × String)) (body : StepBody)
  | completionRequest (label : String) (headers : List (String × String)) (body : CompletionBody)
  | logError (msg : String)
  | logMessage (msg : String)
  | thinkTime (seconds : Nat)
  deriving DecidableEq, Repr

/-- Per-iteration inputs of `Action`: worker id, iteration number, the
wall-clock seconds observed by the iteration, the worker's profile, and the
value of the `{pIteration}` parameter. -/
structure IterCtx where
  vuser_id : Nat
  iteration : Nat
  now : Nat
  profile : Profile
  pIteration : String
  deriving DecidableEq, Repr

/-- Lines 111-112: `sprintf(dt_test_header,
"TSN=%s;LSN=%s;LTN=%s;VU=%d;SI=LoadRunner;PC=BizObs-Demo;AN=Argos;CID=%s", ...)`.
The `%s` for CID is the parameter reference to `correlation_id`, expanded
when `web_add_header` evaluates the header value, so the model takes the
correlation id value directly. -/
def dt_test_header (stepName : String) (vuser_id : Nat) (correlationId : String) : String :=
  "TSN=" ++ stepName ++ ";LSN=" ++ journeyLabel ++ ";LTN=" ++ runLabel ++
    ";VU=" ++ cDec vuser_id ++ ";SI=LoadRunner;PC=BizObs-Demo;AN=Argos;CID=" ++ correlationId

/-- The twelve headers attached with `web_add_header` before each step's
request (lines 118-129), with LoadRunner parameters evaluated. -/
def stepHeaders (ctx : IterCtx) (sd : StepDef) : List (String × String) :=
  [("X-dynaTrace", dt_test_header sd.stepName ctx.vuser_id
      (correlation_id ctx.vuser_id ctx.iteration ctx.now)),
   ("x-correlation-id", correlation_id ctx.vuser_id ctx.iteration ctx.now),
   ("x-customer-id", customer_id ctx.vuser_id ctx.iteration ctx.now),
   ("x-session-id", session_id ctx.vuser_id ctx.iteration),
   ("x-trace-id", trace_id ctx.vuser_id ctx.iteration ctx.now),
   ("x-step-name", sd.stepName),
   ("x-service-name", sd.serviceName),
   ("x-customer-segment", ctx.profile.customer_segment),
   ("x-traffic-source", ctx.profile.traffic_source),
   ("x-test-iteration", ctx.pIteration),
   ("Content-Type", "application/json"),
   ("User-Agent", "LoadRunner-BizObs-Agent/1.0")]

/-- The step request body (lines 137-170), with parameters evaluated. -/
def stepBody (ctx : IterCtx) (sd : StepDef) : StepBody :=
  { journeyId := correlation_id ctx.vuser_id ctx.iteration ctx.now
    customerId := customer_id ctx.vuser_id ctx.iteration ctx.now
    sessionId := session_id ctx.vuser_id ctx.iteration
    traceId := trace_id ctx.vuser_id ctx.iteration ctx.now
    chained := true
    thinkTimeMs := 250
    errorSimulationEnabled := true
    companyName := "Argos"
    domain := "www.Argos.co.uk"
    stepNumber := sd.stepNumber
    stepName := sd.stepName
    serviceName := sd.serviceName
    description := sd.description
    estimatedDuration := sd.estimatedDuration
    profileName := ctx.profile.customer_name
    profileEmail := ctx.profile.customer_email
    profileSegment := ctx.profile.customer_segment
    profileUserId := customer_id ctx.vuser_id ctx.iteration ctx.now
    deviceType := "desktop"
    location := "US-East" }

/-- The nine names passed to `web_revert_auto_header` after each step's
call (lines 183-191), in call order. -/
def revertNames : List String :=
  ["x-dynatrace-test", "x-correlation-id", "x-customer-id", "x-session-id",
   "x-trace-id", "x-step-name", "x-customer-segment", "x-traffic-source",
   "x-test-iteration"]

/-- One step section of `Action` (the pattern of lines 107-197), given the
HTTP status of the step's response. -/
def stepBlock (ctx : IterCtx) (sd : StepDef) (status : Nat) : List Event :=
  [Event.saveParam "TSN" sd.stepName,
   Event.startTxn sd.stepName,
   Event.logMessage ("Executing step: " ++ sd.stepName ++ " (Service: " ++
     sd.serviceName ++ ") for " ++ ctx.profile.customer_name)]
  ++ (stepHeaders ctx sd).map (fun p => Event.addHeader p.1 p.2)
  ++ [Event.stepRequest (sd.stepName ++ "_Journey_Step") (stepHeaders ctx sd)
       (stepBody ctx sd)]
  ++ (if 400 ≤ status then
        [Event.logError ("Step " ++ sd.stepName ++ " failed with status: " ++ cDec status)]
      else [])
  ++ [Event.endTxn sd.stepName (stepOutcome status),
      Event.cleanupCookies]
  ++ revertNames.map Event.revertAutoHeader
  ++ [Event.endTxn sd.stepName TxnOutcome.auto,
      Event.logMessage ("Completed step: " ++ sd.stepName),
      Event.thinkTime sd.thinkAfter]

/-- The three headers attached before the completion request
(lines 671-673); `dt_test_header` still holds step 6's value. -/
def completionHeaders (ctx : IterCtx) : List (String × String) :=
  [("x-dynatrace-test", dt_test_header argosStep6.stepName ctx.vuser_id
      (correlation_id ctx.vuser_id ctx.iteration ctx.now)),
   ("x-correlation-id", correlation_id ctx.vuser_id ctx.iteration ctx.now),
   ("Content-Type", "application/json")]

/-- Body of the completion event (lines 680-691); `timeNow` is the value of
the `{TimeNow}` parameter. -/
def completionBody (ctx : IterCtx) (timeNow : String) : CompletionBody :=
  { eventType := "journey_completed"
    correlationId := correlation_id ctx.vuser_id ctx.iteration ctx.now
    customerId := customer_id ctx.vuser_id ctx.iteration ctx.now
    companyName := "Argos"
    customerName := ctx.profile.customer_name
    customerSegment := ctx.profile.customer_segment
    totalSteps := 6
    loadTest := true
    completionTime := timeNow }

/-- The trailing completion-event section (lines 664-692): the enclosing
journey transaction ends, the completion message is logged, and the
fire-and-forget completion request is issued; the script never inspects
that request's response (it returns immediately after). -/
def completionSection (ctx : IterCtx) (timeNow : String) : List Event :=
  [Event.endTxn "Full_Customer_Journey" TxnOutcome.auto,
   Event.logMessage ("Journey completed for " ++ ctx.profile.customer_name)]
  ++ (completionHeaders ctx).map (fun p => Event.addHeader p.1 p.2)
  ++ [Event.completionRequest "Journey_Completion_Event" (completionHeaders ctx)
       (completionBody ctx timeNow)]

/-- Lines 87-102: the per-iteration identifier generation and parameter
setup performed at the top of `Action`, before the journey transaction. -/
def iterInit (ctx : IterCtx) : List Event :=
  [Event.saveParam "correlation_id" (correlation_id ctx.vuser_id ctx.iteration ctx.now),
   Event.saveParam "customer_id" (customer_id ctx.vuser_id ctx.iteration ctx.now),
   Event.saveParam "session_id" (session_id ctx.vuser_id ctx.iteration),
   Event.saveParam "trace_id" (trace_id ctx.vuser_id ctx.iteration ctx.now),
   Event.saveParam "LSN" journeyLabel,
   Event.saveParam "LTN" runLabel]

/-- The whole of `Action` (lines 83-695) as an event trace.  `statuses k`
is the HTTP status of step `k`'s response. -/
def Action (ctx : IterCtx) (statuses : Nat → Nat) (timeNow : String) : List Event :=
  iterInit ctx
  ++ [Event.startTxn "Full_Customer_Journey",
      Event.logMessage ("Starting journey for customer: " ++ ctx.profile.customer_name)]
  ++ stepBlock ctx argosStep1 (statuses 1)
  ++ stepBlock ctx argosStep2 (statuses 2)
  ++ stepBlock ctx argosStep3 (statuses 3)
  ++ stepBlock ctx argosStep4 (statuses 4)
  ++ stepBlock ctx argosStep5 (statuses 5)
  ++ stepBlock ctx argosStep6 (statuses 6)
  ++ completionSection ctx timeNow

/-! ### Observation functions over traces -/

/-- The step numbers of the step requests of a trace, in order. -/
def requestStepNumbers (tr : List Event) : List Nat :=
  tr.filterMap fun e =>
    match e with
    | Event.stepRequest _ _ body => some body.stepNumber
    | _ => none

/-- The bodies of the step requests of a trace, in order. -/
def stepRequestBodies (tr : List Event) : List StepBody :=
  tr.filterMap fun e =>
    match e with
    | Event.stepRequest _ _ body => some body
    | _ => none

/-- The bodies of the completion-event requests of a trace, in order. -/
def completionRequestBodies (tr : List Event) : List CompletionBody :=
  tr.filterMap fun e =>
    match e with
    | Event.completionRequest _ _ body => some body
    | _ => none

/-- The names passed to `web_revert_auto_header`, in order. -/
def revertedNames (tr : List Event) : List String :=
  tr.filterMap fun e =>
    match e with
    | Event.revertAutoHeader n => some n
    | _ => none

/-- For each step request of the trace, in order, the value its header list
carries for `name` (`none` when the header is absent). -/
def requestHeaderValues (name : String) (tr : List Event) : List (Option String) :=
  tr.filterMap fun e =>
    match e with
    | Event.stepRequest _ headers _ => some (headers.lookup name)
    | _ => none

/-- Does the trace save one of the four per-iteration identifiers? -/
def isIdSave : Event → Bool
  | Event.saveParam n _ =>
      n == "correlation_id" || n == "customer_id" || n == "session_id" || n == "trace_id"
  | _ => false

/-! ### Claim C1: step pass/fail classification -/

/-- Claim C1: a step transaction ends Pass exactly when the response status
is strictly below 400 and Fail exactly when it is at least 400 — so 200 and
the boundary 399 classify Pass while 400, 500 and 503 classify Fail — the
step section ends its transaction with that outcome, and on failure it logs
the status. -/
theorem step_transaction_outcome (status : Nat) :
    (stepOutcome status = TxnOutcome.pass ↔ status < 400) ∧
    (stepOutcome status = TxnOutcome.fail ↔ 400 ≤ status) ∧
    stepOutcome 200 = TxnOutcome.pass ∧
    stepOutcome 399 = TxnOutcome.pass ∧
    stepOutcome 400 = TxnOutcome.fail ∧
    stepOutcome 500 = TxnOutcome.fail ∧
    stepOutcome 503 = TxnOutcome.fail ∧
    (∀ ctx sd, Event.endTxn sd.stepName (stepOutcome status) ∈ stepBlock ctx sd status) ∧
    (∀ ctx sd, 400 ≤ status →
      Event.logError ("Step " ++ sd.stepName ++ " failed with status: " ++ cDec status)
        ∈ stepBlock ctx sd status) := by
  refine ⟨?_, ?_, rfl, rfl, rfl, rfl, rfl, ?_, ?_⟩
  · unfold stepOutcome
    split <;> simp <;> omega
  · unfold stepOutcome
    split <;> simp <;> omega
  · intro ctx sd
    simp [stepBlock]
  · intro ctx sd h
    simp [stepBlock, h]

/-- Witness for C1 at status 500 in a concrete step section. -/
theorem step_transaction_outcome_witness :
    (400 : Nat) ≤ 500 ∧
      Event.logError ("Step " ++ argosStep1.stepName ++ " failed with status: " ++ cDec 500)
        ∈ stepBlock ⟨1, 1, 0, vuser_init 0 0 0, "1"⟩ argosStep1 500 :=
  ⟨by omega,
   (step_transaction_outcome 500).2.2.2.2.2.2.2.2 ⟨1, 1, 0, vuser_init 0 0 0, "1"⟩
     argosStep1 (by omega)⟩

/-! ### Claim C5: unconditional in-order step execution -/

theorem requestStepNumbers_append (a b : List Event) :
    requestStepNumbers (a ++ b) = requestStepNumbers a ++ requestStepNumbers b :=
  List.filterMap_append a b _

theorem requestStepNumbers_stepBlock (ctx : IterCtx) (sd : StepDef) (status : Nat) :
    requestStepNumbers (stepBlock ctx sd status) = [sd.stepNumber] := by
  unfold requestStepNumbers stepBlock stepHeaders revertNames
  by_cases h : 400 ≤ status <;> simp [h, stepBody]

/-- Claim C5: in every iteration, whatever statuses the six responses have,
the step requests issued are exactly those of the six journey steps, in
strictly increasing stepNumber order 1,2,3,4,5,6 — no prior outcome skips,
reorders or prevents a later step's request. -/
theorem steps_execute_in_order (ctx : IterCtx) (statuses : Nat → Nat) (timeNow : String) :
    requestStepNumbers (Action ctx statuses timeNow) =
      argosSteps.map (fun sd => sd.stepNumber) ∧
    argosSteps.map (fun sd => sd.stepNumber) = [1, 2, 3, 4, 5, 6] ∧
    List.Chain' (· < ·) (requestStepNumbers (Action ctx statuses timeNow)) := by
  have h1 : requestStepNumbers (Action ctx statuses timeNow) = [1, 2, 3, 4, 5, 6] := by
    unfold Action
    simp only [requestStepNumbers_append, requestStepNumbers_stepBlock]
    have hinit : requestStepNumbers (iterInit ctx) = [] := by
      unfold requestStepNumbers iterInit
      simp
    have hmid : requestStepNumbers
        [Event.startTxn "Full_Customer_Journey",
         Event.logMessage ("Starting journey for customer: " ++ ctx.profile.customer_name)]
        = [] := by
      unfold requestStepNumbers
      simp
    have hend : requestStepNumbers (completionSection ctx timeNow) = [] := by
      unfold requestStepNumbers completionSection completionHeaders
      simp
    rw [hinit, hmid, hend]
    rfl
  have h2 : argosSteps.map (fun sd => sd.stepNumber) = [1, 2, 3, 4, 5, 6] := rfl
  refine ⟨by rw [h1, h2], h2, ?_⟩
  rw [h1]
  norm_num [List.chain'_cons]

/-! ### Claim C6: the tracing-header format -/

/-- Spec-side rendering of §4.2's tracing-header contract: a
`key=value;key=value;...` string over an ordered association list. -/
def joinKVs : List (String × String) → String
  | [] => ""
  | [kv] => kv.1 ++ "=" ++ kv.2
  | kv :: rest => kv.1 ++ "=" ++ kv.2 ++ ";" ++ joinKVs rest

/-- Claim C6: every step's tracing-header value is the semicolon-separated
key=value rendering of exactly the pairs TSN (step name), LSN (journey
label), LTN (run label), VU (worker id), SI, PC, AN, CID (correlation id),
in that fixed order, and that value is attached as the `X-dynaTrace`
request header of the step. -/
theorem tracing_header_format (s : String) (v : Nat) (cid : String) :
    dt_test_header s v cid =
      joinKVs [("TSN", s), ("LSN", journeyLabel), ("LTN", runLabel), ("VU", cDec v),
               ("SI", "LoadRunner"), ("PC", "BizObs-Demo"), ("AN", "Argos"), ("CID", cid)] ∧
    (∀ ctx sd status,
      Event.addHeader "X-dynaTrace"
          (dt_test_header sd.stepName ctx.vuser_id
            (correlation_id ctx.vuser_id ctx.iteration ctx.now))
        ∈ stepBlock ctx sd status) := by
  constructor
  · apply String.ext
    simp only [dt_test_header, joinKVs, String.data_append, List.append_assoc]
    rfl
  · intro ctx sd status
    simp [stepBlock, stepHeaders]

/-! ### Claim C7: identifiers generated once, constant across the iteration -/

theorem stepRequestBodies_append (a b : List Event) :
    stepRequestBodies (a ++ b) = stepRequestBodies a ++ stepRequestBodies b :=
  List.filterMap_append a b _

theorem stepRequestBodies_stepBlock (ctx : IterCtx) (sd : StepDef) (status : Nat) :
    stepRequestBodies (stepBlock ctx sd status) = [stepBody ctx sd] := by
  unfold stepRequestBodies stepBlock stepHeaders revertNames
  by_cases h : 400 ≤ status <;> simp [h]

theorem stepRequestBodies_completionSection (ctx : IterCtx) (timeNow : String) :
    stepRequestBodies (completionSection ctx timeNow) = [] := by
  unfold stepRequestBodies completionSection completionHeaders
  simp

theorem filter_isIdSave_stepBlock (ctx : IterCtx) (sd : StepDef) (status : Nat) :
    (stepBlock ctx sd status).filter isIdSave = [] := by
  unfold stepBlock stepHeaders revertNames
  by_cases h : 400 ≤ status <;> simp [h, isIdSave]

theorem filter_isIdSave_completionSection (ctx : IterCtx) (timeNow : String) :
    (completionSection ctx timeNow).filter isIdSave = [] := by
  unfold completionSection completionHeaders
  simp [isIdSave]

/-- Claim C7: the four identifiers are generated exactly once per
iteration — saved at iteration start, in the prefix of the trace that
precedes the journey transaction and every step request — never re-saved
afterwards, and every step request body of the iteration carries those same
four values. -/
theorem ids_generated_once_per_iteration (ctx : IterCtx) (statuses : Nat → Nat)
    (timeNow : String) :
    ((stepRequestBodies (Action ctx statuses timeNow)).all fun b =>
        b.journeyId == correlation_id ctx.vuser_id ctx.iteration ctx.now &&
        b.customerId == customer_id ctx.vuser_id ctx.iteration ctx.now &&
        b.sessionId == session_id ctx.vuser_id ctx.iteration &&
        b.traceId == trace_id ctx.vuser_id ctx.iteration ctx.now) = true ∧
    (Action ctx statuses timeNow).filter isIdSave =
      [Event.saveParam "correlation_id" (correlation_id ctx.vuser_id ctx.iteration ctx.now),
       Event.saveParam "customer_id" (customer_id ctx.vuser_id ctx.iteration ctx.now),
       Event.saveParam "session_id" (session_id ctx.vuser_id ctx.iteration),
       Event.saveParam "trace_id" (trace_id ctx.vuser_id ctx.iteration ctx.now)] ∧
    ∃ pre post,
      Action ctx statuses timeNow = pre ++ post ∧
      pre = iterInit ctx ++
        [Event.startTxn "Full_Customer_Journey",
         Event.logMessage ("Starting journey for customer: " ++ ctx.profile.customer_name)] ∧
      post.filter isIdSave = [] ∧
      requestStepNumbers pre = [] ∧
      requestStepNumbers post = argosSteps.map (fun sd => sd.stepNumber) := by
  refine ⟨?_, ?_, ?_⟩
  · unfold Action
    simp only [stepRequestBodies_append, stepRequestBodies_stepBlock,
      stepRequestBodies_completionSection]
    have hinit : stepRequestBodies (iterInit ctx) = [] := by
      unfold stepRequestBodies iterInit
      simp
    have hmid : stepRequestBodies
        [Event.startTxn "Full_Customer_Journey",
         Event.logMessage ("Starting journey for customer: " ++ ctx.profile.customer_name)]
        = [] := by
      unfold stepRequestBodies
      simp
    rw [hinit, hmid]
    simp [stepBody]
  · unfold Action
    simp only [List.filter_append, filter_isIdSave_stepBlock,
      filter_isIdSave_completionSection]
    have hinit : (iterInit ctx).filter isIdSave =
        [Event.saveParam "correlation_id" (correlation_id ctx.vuser_id ctx.iteration ctx.now),
         Event.saveParam "customer_id" (customer_id ctx.vuser_id ctx.iteration ctx.now),
         Event.saveParam "session_id" (session_id ctx.vuser_id ctx.iteration),
         Event.saveParam "trace_id" (trace_id ctx.vuser_id ctx.iteration ctx.now)] := by
      unfold iterInit
      simp [isIdSave]
    have hmid : (List.filter isIdSave
        [Event.startTxn "Full_Customer_Journey",
         Event.logMessage ("Starting journey for customer: " ++ ctx.profile.customer_name)])
        = [] := by
      simp [isIdSave]
    rw [hinit, hmid]
    simp
  · refine ⟨iterInit ctx ++
      [Event.startTxn "Full_Customer_Journey",
       Event.logMessage ("Starting journey for customer: " ++ ctx.profile.customer_name)],
      stepBlock ctx argosStep1 (statuses 1) ++ stepBlock ctx argosStep2 (statuses 2) ++
        stepBlock ctx argosStep3 (statuses 3) ++ stepBlock ctx argosStep4 (statuses 4) ++
        stepBlock ctx argosStep5 (statuses 5) ++ stepBlock ctx argosStep6 (statuses 6) ++
        completionSection ctx timeNow, ?_, rfl, ?_, ?_, ?_⟩
    · unfold Action
      simp [List.append_assoc]
    · simp only [List.filter_append, filter_isIdSave_stepBlock,
        filter_isIdSave_completionSection]
      simp
    · unfold requestStepNumbers iterInit
      simp
    · simp only [requestStepNumbers_append, requestStepNumbers_stepBlock]
      have hend : requestStepNumbers (completionSection ctx timeNow) = [] := by
        unfold requestStepNumbers completionSection completionHeaders
        simp
      rw [hend]
      rfl

/-! ### Claim C2: per-step header release

The claim asserts that every per-step header attached for a step —
`X-dynaTrace` and `x-service-name` included — is released/reverted after
the step's call.  The script's revert list (lines 183-191) names
`x-dynatrace-test` (a name never attached; the attached header is
`X-dynaTrace`) and omits `x-service-name` entirely. -/

/-- Claim C2 counterexample: in a concrete iteration, step 1 attaches the
`x-service-name` header, yet no `web_revert_auto_header` call anywhere in
the whole of `Action` names `x-service-name` — nor `X-dynaTrace`. -/
theorem header_revert_counterexample :
    Event.addHeader "x-service-name" "ProductDiscoveryService"
      ∈ stepBlock ⟨1, 1, 0, vuser_init 0 0 0, "1"⟩ argosStep1 200 ∧
    "x-service-name" ∉
      revertedNames (Action ⟨1, 1, 0, vuser_init 0 0 0, "1"⟩ (fun _ => 200) "T") ∧
    "X-dynaTrace" ∉
      revertedNames (Action ⟨1, 1, 0, vuser_init 0 0 0, "1"⟩ (fun _ => 200) "T") := by
  refine ⟨?_, ?_, ?_⟩ <;> decide

theorem revertedNames_stepBlock (ctx : IterCtx) (sd : StepDef) (status : Nat) :
    revertedNames (stepBlock ctx sd status) = revertNames := by
  unfold revertedNames stepBlock stepHeaders revertNames
  by_cases h : 400 ≤ status <;> simp [h]

theorem requestHeaderValues_append (name : String) (a b : List Event) :
    requestHeaderValues name (a ++ b) =
      requestHeaderValues name a ++ requestHeaderValues name b :=
  List.filterMap_append a b _

theorem requestHeaderValues_stepBlock (name : String) (ctx : IterCtx) (sd : StepDef)
    (status : Nat) :
    requestHeaderValues name (stepBlock ctx sd status) = [(stepHeaders ctx sd).lookup name] := by
  unfold requestHeaderValues stepBlock revertNames
  by_cases h : 400 ≤ status <;> simp [h]

theorem requestHeaderValues_completionSection (name : String) (ctx : IterCtx)
    (timeNow : String) :
    requestHeaderValues name (completionSection ctx timeNow) = [] := by
  unfold requestHeaderValues completionSection completionHeaders
  simp

theorem requestHeaderValues_iterInit (name : String) (ctx : IterCtx) :
    requestHeaderValues name (iterInit ctx) = [] := by
  unfold requestHeaderValues iterInit
  simp

/-- Claim C2 amended: after each step's call the script reverts exactly the
nine names `x-dynatrace-test`, `x-correlation-id`, `x-customer-id`,
`x-session-id`, `x-trace-id`, `x-step-name`, `x-customer-segment`,
`x-traffic-source`, `x-test-iteration` — neither `x-service-name` nor the
attached `X-dynaTrace` is among them.  Still no step-identifying header
value leaks: `web_add_header` attaches a header to the next request only,
and each step re-attaches all twelve headers, so the K-th step request
carries exactly step K's `x-step-name` and `x-service-name` values, and the
six step names are pairwise distinct. -/
theorem header_release_amended :
    (∀ ctx sd status, revertedNames (stepBlock ctx sd status) = revertNames) ∧
    "x-service-name" ∉ revertNames ∧
    "X-dynaTrace" ∉ revertNames ∧
    (∀ ctx statuses timeNow,
      requestHeaderValues "x-step-name" (Action ctx statuses timeNow) =
        argosSteps.map (fun sd => some sd.stepName) ∧
      requestHeaderValues "x-service-name" (Action ctx statuses timeNow) =
        argosSteps.map (fun sd => some sd.serviceName)) ∧
    List.Pairwise (· ≠ ·) (argosSteps.map fun sd => sd.stepName) := by
  refine ⟨revertedNames_stepBlock, by decide, by decide, ?_, by decide⟩
  intro ctx statuses timeNow
  constructor <;>
  · unfold Action
    simp only [requestHeaderValues_append, requestHeaderValues_stepBlock,
      requestHeaderValues_completionSection, requestHeaderValues_iterInit]
    have hmid : ∀ nm : String, requestHeaderValues nm
        [Event.startTxn "Full_Customer_Journey",
         Event.logMessage ("Starting journey for customer: " ++ ctx.profile.customer_name)]
        = [] := by
      intro nm
      unfold requestHeaderValues
      simp
    rw [hmid]
    simp only [stepHeaders, List.lookup]
    norm_num
    rfl

/-! ### Claim C8: the trailing completion event -/

theorem completionRequestBodies_append (a b : List Event) :
    completionRequestBodies (a ++ b) =
      completionRequestBodies a ++ completionRequestBodies b :=
  List.filterMap_append a b _

theorem completionRequestBodies_stepBlock (ctx : IterCtx) (sd : StepDef) (status : Nat) :
    completionRequestBodies (stepBlock ctx sd status) = [] := by
  unfold completionRequestBodies stepBlock stepHeaders revertNames
  by_cases h : 400 ≤ status <;> simp [h]

/-- Claim C8: after the last step, `Action` fires exactly one completion
event request; its body carries the correlation id, customer id, company
name, customer name, customer segment, the journey's total step count (6)
and the load-test flag; it is the final event of the trace — the enclosing
`Full_Customer_Journey` transaction has already ended in the preceding
prefix, which contains no completion request, so nothing about the
completion call can affect the journey's recorded outcome. -/
theorem completion_event_once (ctx : IterCtx) (statuses : Nat → Nat) (timeNow : String) :
    completionRequestBodies (Action ctx statuses timeNow) = [completionBody ctx timeNow] ∧
    (completionBody ctx timeNow).eventType = "journey_completed" ∧
    (completionBody ctx timeNow).correlationId =
      correlation_id ctx.vuser_id ctx.iteration ctx.now ∧
    (completionBody ctx timeNow).customerId =
      customer_id ctx.vuser_id ctx.iteration ctx.now ∧
    (completionBody ctx timeNow).companyName = "Argos" ∧
    (completionBody ctx timeNow).customerName = ctx.profile.customer_name ∧
    (completionBody ctx timeNow).customerSegment = ctx.profile.customer_segment ∧
    (completionBody ctx timeNow).totalSteps = argosSteps.length ∧
    (completionBody ctx timeNow).loadTest = true ∧
    ∃ pre,
      Action ctx statuses timeNow =
        pre ++ [Event.completionRequest "Journey_Completion_Event" (completionHeaders ctx)
          (completionBody ctx timeNow)] ∧
      Event.endTxn "Full_Customer_Journey" TxnOutcome.auto ∈ pre ∧
      completionRequestBodies pre = [] := by
  refine ⟨?_, rfl, rfl, rfl, rfl, rfl, rfl, rfl, rfl, ?_⟩
  · unfold Action completionSection
    simp only [completionRequestBodies_append, completionRequestBodies_stepBlock]
    have hinit : completionRequestBodies (iterInit ctx) = [] := by
      unfold completionRequestBodies iterInit
      simp
    rw [hinit]
    unfold completionRequestBodies completionHeaders
    simp
  · refine ⟨iterInit ctx ++
      [Event.startTxn "Full_Customer_Journey",
       Event.logMessage ("Starting journey for customer: " ++ ctx.profile.customer_name)] ++
      stepBlock ctx argosStep1 (statuses 1) ++ stepBlock ctx argosStep2 (statuses 2) ++
      stepBlock ctx argosStep3 (statuses 3) ++ stepBlock ctx argosStep4 (statuses 4) ++
      stepBlock ctx argosStep5 (statuses 5) ++ stepBlock ctx argosStep6 (statuses 6) ++
      ([Event.endTxn "Full_Customer_Journey" TxnOutcome.auto,
        Event.logMessage ("Journey completed for " ++ ctx.profile.customer_name)] ++
       (completionHeaders ctx).map (fun p => Event.addHeader p.1 p.2)), ?_, ?_, ?_⟩
    · unfold Action completionSection
      simp [List.append_assoc]
    · simp
    · simp only [completionRequestBodies_append, completionRequestBodies_stepBlock]
      have hinit : completionRequestBodies (iterInit ctx) = [] := by
        unfold completionRequestBodies iterInit
        simp
      rw [hinit]
      unfold completionRequestBodies completionHeaders
      simp

/-! ### Claim C10: name/email pairing of the assigned profile -/

/-- Claim C10: the profile assigned by `vuser_init` always pairs the
customer name with the email at the same index of the 16-entry catalogs —
the (name, email) pair is one of the zipped catalog pairs, determined by
the first random draw alone, e.g. index 0 gives Sarah Johnson and
sarah.johnson@email.com — while the segment depends only on the second
draw and the traffic source only on the third. -/
theorem profile_name_email_paired (r1 r2 r3 : Nat) :
    ((vuser_init r1 r2 r3).customer_name, (vuser_init r1 r2 r3).customer_email)
      ∈ customer_names.zip customer_emails ∧
    (∀ s t, (vuser_init r1 r2 r3).customer_name = (vuser_init r1 s t).customer_name ∧
      (vuser_init r1 r2 r3).customer_email = (vuser_init r1 s t).customer_email) ∧
    (∀ s t, (vuser_init r1 r2 r3).customer_segment = (vuser_init s r2 t).customer_segment) ∧
    (∀ s t, (vuser_init r1 r2 r3).traffic_source = (vuser_init s t r3).traffic_source) ∧
    (vuser_init 0 r2 r3).customer_name = "Sarah Johnson" ∧
    (vuser_init 0 r2 r3).customer_email = "sarah.johnson@email.com" := by
  refine ⟨?_, fun s t => ⟨rfl, rfl⟩, fun s t => rfl, fun s t => rfl, rfl, rfl⟩
  have key : ∀ j, j < 16 →
      (customer_names.getD j "", customer_emails.getD j "")
        ∈ customer_names.zip customer_emails := by decide
  exact key (r1 % 16) (Nat.mod_lt r1 (by omega))

end BizObs
